import Mathlib

/-!
Shallow embedding of the bioprocess-insights-platform backend
(src/backend/main.py): the replay cursor, control state, biophysical
coupling, predictive twin, health/anomaly evaluator and auto-pilot of the
single-instance simulation engine.

Python floats are modelled as rationals; `round(x, k)` is modelled by
rounding `x * 10^k` to the nearest integer (the tie-breaking behaviour of
float rounding is abstracted by Mathlib's `round`).  Python exceptions
escaping the handler are modelled by an explicit `exception` outcome.
-/

namespace Bioprocess

/-- One record of the historical batch source (the CSV rows): fixed columns
Temperature, Impeller_Speed, pH, Dissolved_Oxygen, Yield. -/
structure Row where
  Temperature : ℚ
  Impeller_Speed : ℚ
  pH : ℚ
  Dissolved_Oxygen : ℚ
  Yield : ℚ
deriving DecidableEq

/-- The process-wide mutable globals of main.py: `current_index`,
`batch_count`, `temp_buffer` and the `sim_adjustments` dict
(`manual_rpm`, `manual_anomaly`). -/
structure SimState where
  current_index : ℕ
  batch_count : ℕ
  temp_buffer : List ℚ
  manual_rpm : ℚ
  manual_anomaly : Bool
deriving DecidableEq

/-- The initial module-level state: index 0, batch_count 1, empty twin
buffer, manual_rpm 300.0, manual_anomaly False. -/
def initState : SimState :=
  { current_index := 0, batch_count := 1, temp_buffer := [],
    manual_rpm := 300, manual_anomaly := false }

/-- Python `round(x, 2)` on the rational model. -/
def round2 (q : ℚ) : ℚ := (round (q * 100) : ℤ) / 100

/-- Python `round(x, 1)` on the rational model. -/
def round1 (q : ℚ) : ℚ := (round (q * 10) : ℤ) / 10

/-- Zero-padded 3-digit formatting, Python `f"{n:03d}"` for `n : ℕ`. -/
def pad3 (n : ℕ) : String :=
  if n < 10 then "00" ++ toString n
  else if n < 100 then "0" ++ toString n
  else toString n

/-- The batch identifier string built on line 145 of main.py:
`f"B2026-{batch_count:03d}"`. -/
def batchId (n : ℕ) : String := "B2026-" ++ pad3 n

/-- Lines 88–92 of main.py: read the row at `idx`, then either wrap the
index to 0 and bump the batch counter, or advance the index.  Returns the
(new index, new batch count) pair. -/
def wrapAdvance (N idx bc : ℕ) : ℕ × ℕ :=
  if idx + 1 ≥ N then (0, bc + 1) else (idx + 1, bc)

/-- Lines 101–102 of main.py: `rpm_heat_bias = (user_rpm - 300) / 1000`,
`simulated_temp = round(row['Temperature'] + rpm_heat_bias, 2)`. -/
def simTemp (row : Row) (rpm : ℚ) : ℚ :=
  round2 (row.Temperature + (rpm - 300) / 1000)

/-- Lines 105–109 of main.py.  `sqrtQ` stands for the float operation
`(· ) ** 0.5` on a nonnegative argument.  When `rpm < 0` (and no fault),
Python's `(user_rpm / 300.0) ** 0.5` evaluates to a complex number and the
enclosing `round(..., 2)` raises TypeError: that outcome is `none`. -/
def simDO2 (sqrtQ : ℚ → ℚ) (row : Row) (rpm : ℚ) (fault : Bool) : Option ℚ :=
  if fault then some (round2 (row.Dissolved_Oxygen * (5 / 100)))
  else if rpm < 0 then none
  else some (round2 (sqrtQ (rpm / 300) * row.Dissolved_Oxygen))

/-- The value `simDO2` carries in its non-exceptional cases. -/
def simDO2val (sqrtQ : ℚ → ℚ) (row : Row) (rpm : ℚ) (fault : Bool) : ℚ :=
  if fault then round2 (row.Dissolved_Oxygen * (5 / 100))
  else round2 (sqrtQ (rpm / 300) * row.Dissolved_Oxygen)

/-- Lines 111–115 of main.py, the auto-pilot: if `simulated_do2 < 30.0`
and no manual fault, set `manual_rpm = min(600.0, manual_rpm + 5.0)` and
flag `auto_pilot_active = True`; otherwise leave the speed alone.
Returns (new manual_rpm, auto_pilot_active). -/
def autoPilot (do2 : ℚ) (fault : Bool) (rpm : ℚ) : ℚ × Bool :=
  if do2 < 30 ∧ fault = false then (min 600 (rpm + 5), true) else (rpm, false)

/-- Lines 118–120 of main.py: append the simulated temperature to the twin
buffer and `pop(0)` once the length exceeds 5. -/
def pushBuffer (buf : List ℚ) (t : ℚ) : List ℚ :=
  let b := buf ++ [t]
  if b.length > 5 then b.drop 1 else b

/-- Lines 122–125 of main.py: once the buffer holds exactly 5 samples,
`slope = (temp_buffer[-1] - temp_buffer[0]) / 4` and the prediction is
`round(temp_buffer[-1] + (slope * 2), 2)`; otherwise `None`. -/
def predictTemp (buf : List ℚ) : Option ℚ :=
  if buf.length = 5 then
    some (round2 (buf.getLastD 0 + ((buf.getLastD 0 - buf.headD 0) / 4) * 2))
  else none

/-- Lines 128–134 of main.py: deviations, fault penalty, raw health score
and the clamp `max(0, min(100, health_score))`. -/
def healthScore (t p : ℚ) (fault : Bool) : ℚ :=
  let raw := 100 - |t - 37| * 15 - |p - 7| * 40 - (if fault then 50 else 0)
  max 0 (min 100 raw)

/-- The successful response's `data` object (line 141–157 of main.py),
after the `**row` spread has been overwritten by the later keys.  The
wall-clock `timestamp` field is outside the model. -/
structure TickData where
  batch_id : String
  Temperature : ℚ
  Impeller_Speed : ℚ
  Dissolved_Oxygen : ℚ
  pH : ℚ
  Yield : ℚ
  health_score : ℚ
  is_anomaly : Bool
  auto_pilot_active : Bool
  digital_twin_temp : Option ℚ
deriving DecidableEq

/-- Outcome of one call to the tick endpoint: the `{"error": ...}` payload
for an empty source, an unhandled Python exception (no payload at all), or
the success payload. -/
inductive TickResult where
  | error (msg : String)
  | exception
  | success (d : TickData)
deriving DecidableEq

/-- Projection used to observe the auto-pilot flag of a success result. -/
def TickResult.autoPilotFlag : TickResult → Option Bool
  | .success d => some d.auto_pilot_active
  | _ => none

/-- Body of `get_process_data` once the row at the current index has been
fetched (`df.iloc[current_index]`, line 84): the index/batch update, the
biophysical coupling, the auto-pilot, the digital-twin update and query,
the health/anomaly evaluation and the packet assembly.  `N` is `len(df)`.
On the TypeError path (negative rpm, no fault) the index and batch counter
have already been mutated when the exception is raised, but the buffer and
control state have not. -/
def tickRow (sqrtQ : ℚ → ℚ) (N : ℕ) (row : Row) (s : SimState) :
    TickResult × SimState :=
  let idx' := (wrapAdvance N s.current_index s.batch_count).1
  let bc' := (wrapAdvance N s.current_index s.batch_count).2
  let user_rpm := s.manual_rpm
  match simDO2 sqrtQ row user_rpm s.manual_anomaly with
  | none => (.exception, { s with current_index := idx', batch_count := bc' })
  | some simulated_do2 =>
    let rpm' := (autoPilot simulated_do2 s.manual_anomaly user_rpm).1
    let active := (autoPilot simulated_do2 s.manual_anomaly user_rpm).2
    let st := simTemp row user_rpm
    let buf' := pushBuffer s.temp_buffer st
    let hs := healthScore st row.pH s.manual_anomaly
    (.success
      { batch_id := batchId bc'
        Temperature := st
        Impeller_Speed := round1 rpm'
        Dissolved_Oxygen := round2 simulated_do2
        pH := round2 row.pH
        Yield := round2 row.Yield
        health_score := round1 hs
        is_anomaly := decide (hs < 70) || s.manual_anomaly
        auto_pilot_active := active
        digital_twin_temp := predictTemp buf' },
     { s with current_index := idx', batch_count := bc',
              temp_buffer := buf', manual_rpm := rpm' })

/-- `GET /api/v1/process-data` (lines 72–157 of main.py): the empty-source
guard, the row fetch, and the simulation body.  An out-of-range
`df.iloc[...]` would raise IndexError before any mutation. -/
def get_process_data (sqrtQ : ℚ → ℚ) (df : List Row) (s : SimState) :
    TickResult × SimState :=
  if df.isEmpty then (.error "No data available", s)
  else
    match df[s.current_index]? with
    | none => (.exception, s)
    | some row => tickRow sqrtQ df.length row s

/-- Input of `POST /api/v1/control`: the `"rpm"` key may be absent, present
but not convertible by `float(...)`, or a number `v`. -/
inductive RpmInput where
  | missing
  | nonNumeric
  | num (v : ℚ)
deriving DecidableEq

/-- Outcome of the control endpoint: the acknowledgment payload
`{"status": "Control Signal Received", "new_rpm": ...}`, or an unhandled
exception (the `float(...)` call raising on a non-numeric value). -/
inductive ControlResult where
  | ok (new_rpm : ℚ)
  | exception
deriving DecidableEq

/-- `POST /api/v1/control` (lines 62–70 of main.py):
`new_rpm = float(data.get("rpm", 300.0))` followed by
`sim_adjustments["manual_rpm"] = new_rpm`.  A missing key yields the
default 300.0, which is then stored; a non-numeric value makes `float`
raise before any mutation. -/
def update_simulation (inp : RpmInput) (s : SimState) : ControlResult × SimState :=
  match inp with
  | .missing => (.ok 300, { s with manual_rpm := 300 })
  | .nonNumeric => (.exception, s)
  | .num v => (.ok v, { s with manual_rpm := v })

/-- `POST /api/v1/trigger-anomaly` (lines 173–194): sets
`sim_adjustments["manual_anomaly"] = True`. -/
def trigger_anomaly (s : SimState) : SimState := { s with manual_anomaly := true }

/-- `POST /api/v1/reset-anomaly` (lines 196–208): sets
`sim_adjustments["manual_anomaly"] = False`. -/
def reset_anomaly (s : SimState) : SimState := { s with manual_anomaly := false }

/-- The state transition of one tick call. -/
def tickState (sqrtQ : ℚ → ℚ) (df : List Row) (s : SimState) : SimState :=
  (get_process_data sqrtQ df s).2

/-- The state after `n` consecutive tick calls. -/
def runTicks (sqrtQ : ℚ → ℚ) (df : List Row) (n : ℕ) (s : SimState) : SimState :=
  (tickState sqrtQ df)^[n] s

/-! ### Helper lemmas -/

theorem round2_round2 (q : ℚ) : round2 (round2 q) = round2 q := by
  have h : ((round (q * 100) : ℤ) : ℚ) / 100 * 100 = ((round (q * 100) : ℤ) : ℚ) :=
    div_mul_cancel₀ _ (by norm_num)
  simp only [round2, h, round_intCast]

theorem round_eval (q : ℚ) (n : ℤ) (h : (n : ℚ) ≤ q + 1 / 2)
    (h' : q + 1 / 2 < n + 1) : round q = n := by
  rw [round_eq, Int.floor_eq_iff.mpr ⟨h, h'⟩]

theorem round2_eval (q : ℚ) (n : ℤ) (h : (n : ℚ) ≤ q * 100 + 1 / 2)
    (h' : q * 100 + 1 / 2 < n + 1) : round2 q = (n : ℚ) / 100 := by
  rw [round2, round_eval (q * 100) n h h']

theorem round2_zero : round2 0 = 0 := by
  have h := round2_eval 0 0 (by norm_num) (by norm_num)
  simpa using h

theorem simDO2_eq_some (sqrtQ : ℚ → ℚ) (row : Row) (rpm : ℚ) (fault : Bool)
    (hok : fault = true ∨ 0 ≤ rpm) :
    simDO2 sqrtQ row rpm fault = some (simDO2val sqrtQ row rpm fault) := by
  rcases hok with hf | hr
  · simp [simDO2, simDO2val, hf]
  · rcases Bool.eq_false_or_eq_true fault with hf | hf <;>
      simp [simDO2, simDO2val, hf, not_lt.mpr hr]

/-- The row the cursor reads at position `i`, with a dummy value outside
the range (every statement about it assumes the index is in range). -/
def rowAt (df : List Row) (i : ℕ) : Row :=
  df.getD i { Temperature := 0, Impeller_Speed := 0, pH := 0,
              Dissolved_Oxygen := 0, Yield := 0 }

theorem tick_success (sqrtQ : ℚ → ℚ) (df : List Row) (s : SimState)
    (hi : s.current_index < df.length)
    (hok : s.manual_anomaly = true ∨ 0 ≤ s.manual_rpm) :
    get_process_data sqrtQ df s =
      (TickResult.success
        { batch_id := batchId (wrapAdvance df.length s.current_index s.batch_count).2
          Temperature := simTemp (rowAt df s.current_index) s.manual_rpm
          Impeller_Speed := round1 (autoPilot
            (simDO2val sqrtQ (rowAt df s.current_index) s.manual_rpm s.manual_anomaly)
            s.manual_anomaly s.manual_rpm).1
          Dissolved_Oxygen := round2 (simDO2val sqrtQ (rowAt df s.current_index)
            s.manual_rpm s.manual_anomaly)
          pH := round2 (rowAt df s.current_index).pH
          Yield := round2 (rowAt df s.current_index).Yield
          health_score := round1 (healthScore (simTemp (rowAt df s.current_index)
            s.manual_rpm) (rowAt df s.current_index).pH s.manual_anomaly)
          is_anomaly := decide (healthScore (simTemp (rowAt df s.current_index)
            s.manual_rpm) (rowAt df s.current_index).pH s.manual_anomaly < 70)
            || s.manual_anomaly
          auto_pilot_active := (autoPilot
            (simDO2val sqrtQ (rowAt df s.current_index) s.manual_rpm s.manual_anomaly)
            s.manual_anomaly s.manual_rpm).2
          digital_twin_temp := predictTemp (pushBuffer s.temp_buffer
            (simTemp (rowAt df s.current_index) s.manual_rpm)) },
       { s with
          current_index := (wrapAdvance df.length s.current_index s.batch_count).1
          batch_count := (wrapAdvance df.length s.current_index s.batch_count).2
          temp_buffer := pushBuffer s.temp_buffer
            (simTemp (rowAt df s.current_index) s.manual_rpm)
          manual_rpm := (autoPilot
            (simDO2val sqrtQ (rowAt df s.current_index) s.manual_rpm s.manual_anomaly)
            s.manual_anomaly s.manual_rpm).1 }) := by
  have hne : df.isEmpty = false := by
    cases df with
    | nil => simp at hi
    | cons a l => rfl
  rw [get_process_data, hne]
  simp only [Bool.false_eq_true, if_false, List.getElem?_eq_getElem hi,
    rowAt, List.getD_eq_getElem _ _ hi]
  rw [tickRow, simDO2_eq_some sqrtQ _ s.manual_rpm s.manual_anomaly hok]

theorem succ_mod_div_wrap (N n : ℕ) (hN : 0 < N) (hw : n % N + 1 ≥ N) :
    (n + 1) % N = 0 ∧ (n + 1) / N = n / N + 1 := by
  have hlt : n % N < N := Nat.mod_lt _ hN
  have he : n % N + 1 = N := le_antisymm hlt hw
  have hn : n + 1 = N * (n / N + 1) := by
    rw [Nat.mul_add, Nat.mul_one]
    have := Nat.div_add_mod n N
    omega
  constructor
  · rw [hn, Nat.mul_mod_right]
  · rw [hn, Nat.mul_div_cancel_left _ hN]

theorem succ_mod_div_nowrap (N n : ℕ) (hw : ¬ n % N + 1 ≥ N) :
    (n + 1) % N = n % N + 1 ∧ (n + 1) / N = n / N := by
  have hlt : n % N + 1 < N := lt_of_not_le hw
  have hN : 0 < N := lt_of_le_of_lt (Nat.zero_le _) hlt
  have hn : n + 1 = N * (n / N) + (n % N + 1) := by
    have := Nat.div_add_mod n N
    omega
  constructor
  · rw [hn, Nat.mul_add_mod, Nat.mod_eq_of_lt hlt]
  · rw [hn, Nat.mul_add_div hN, Nat.div_eq_of_lt hlt, Nat.add_zero]

theorem pushBuffer_length (buf : List ℚ) (t : ℚ) :
    (pushBuffer buf t).length
      = if buf.length + 1 > 5 then buf.length else buf.length + 1 := by
  simp only [pushBuffer, List.length_append, List.length_cons, List.length_nil,
    Nat.zero_add]
  split <;> simp

theorem autoPilot_fst_lower (do2 rpm : ℚ) (fault : Bool) :
    min rpm 600 ≤ (autoPilot do2 fault rpm).1 := by
  rw [autoPilot]
  split
  · exact le_min (min_le_right _ _) (min_le_of_left_le (by linarith))
  · exact min_le_left _ _

theorem autoPilot_fst_upper (do2 rpm : ℚ) (fault : Bool) :
    (autoPilot do2 fault rpm).1 ≤ max rpm 600 := by
  rw [autoPilot]
  split
  · exact le_max_of_le_right (min_le_left _ _)
  · exact le_max_left _ _

theorem runTicks_invariant (sqrtQ : ℚ → ℚ) (df : List Row) (h : df ≠ []) (n : ℕ) :
    (runTicks sqrtQ df n initState).current_index = n % df.length ∧
    (runTicks sqrtQ df n initState).batch_count = 1 + n / df.length ∧
    (runTicks sqrtQ df n initState).temp_buffer.length = min n 5 ∧
    300 ≤ (runTicks sqrtQ df n initState).manual_rpm ∧
    (runTicks sqrtQ df n initState).manual_anomaly = false := by
  have hN : 0 < df.length := List.length_pos.mpr h
  induction n with
  | zero =>
    simp [runTicks, initState, Nat.zero_mod, Nat.zero_div]
  | succ n ih =>
    obtain ⟨hidx, hbc, hbuf, hrpm, hfault⟩ := ih
    have hstep : runTicks sqrtQ df (n + 1) initState
        = tickState sqrtQ df (runTicks sqrtQ df n initState) := by
      simp [runTicks, Function.iterate_succ_apply']
    set s := runTicks sqrtQ df n initState with hs
    have hi : s.current_index < df.length := hidx ▸ Nat.mod_lt _ hN
    have hok : s.manual_anomaly = true ∨ 0 ≤ s.manual_rpm :=
      Or.inr (le_trans (by norm_num) hrpm)
    rw [hstep, tickState, tick_success sqrtQ df s hi hok]
    refine ⟨?_, ?_, ?_, ?_, ?_⟩
    · show (wrapAdvance df.length s.current_index s.batch_count).1 = (n + 1) % df.length
      rw [wrapAdvance, hidx]
      split
      · exact ((succ_mod_div_wrap df.length n hN (by omega)).1).symm
      · exact ((succ_mod_div_nowrap df.length n (by omega)).1).symm
    · show (wrapAdvance df.length s.current_index s.batch_count).2 = 1 + (n + 1) / df.length
      rw [wrapAdvance, hidx, hbc]
      split
      · have := (succ_mod_div_wrap df.length n hN (by omega)).2
        omega
      · have := (succ_mod_div_nowrap df.length n (by omega)).2
        omega
    · show (pushBuffer s.temp_buffer _).length = min (n + 1) 5
      rw [pushBuffer_length, hbuf]
      split <;> omega
    · show 300 ≤ (autoPilot _ s.manual_anomaly s.manual_rpm).1
      exact le_trans (le_min hrpm (by norm_num)) (autoPilot_fst_lower _ _ _)
    · exact hfault

theorem tick_exception (sqrtQ : ℚ → ℚ) (df : List Row) (s : SimState)
    (hi : s.current_index < df.length) (hfault : s.manual_anomaly = false)
    (hneg : s.manual_rpm < 0) :
    (get_process_data sqrtQ df s).1 = TickResult.exception := by
  have hne : df.isEmpty = false := by
    cases df with
    | nil => simp at hi
    | cons a l => rfl
  rw [get_process_data, hne]
  simp only [Bool.false_eq_true, if_false, List.getElem?_eq_getElem hi]
  rw [tickRow]
  simp [simDO2, hfault, hneg]

theorem round2_simDO2val (sqrtQ : ℚ → ℚ) (row : Row) (rpm : ℚ) (fault : Bool) :
    round2 (simDO2val sqrtQ row rpm fault) = simDO2val sqrtQ row rpm fault := by
  rw [simDO2val]
  split <;> rw [round2_round2]

/-- The base row of §8 of the spec, used as a concrete test vector. -/
def baseRow : Row :=
  { Temperature := 37, Impeller_Speed := 250, pH := 7, Dissolved_Oxygen := 30,
    Yield := 85 }

/-- A row with zero dissolved oxygen, so the simulated oxygenation is 0
whatever value the square-root function takes. -/
def lowDO2Row : Row :=
  { Temperature := 37, Impeller_Speed := 250, pH := 7, Dissolved_Oxygen := 0,
    Yield := 85 }

/-- A concrete stand-in for the float square root, used only at inputs
where the square root's value cannot influence the stated outcome. -/
def sqrtId : ℚ → ℚ := fun q => q

/-! ### Claim theorems -/

/-- C2: with a Source of zero rows, every tick returns the error payload
`{"error": "No data available"}` — a constructor structurally distinct
from any success response — and leaves the whole state (cursor index,
batch counter, twin buffer, control state) exactly unchanged. -/
theorem C2_empty_source_no_mutation (sqrtQ : ℚ → ℚ) (s : SimState) :
    get_process_data sqrtQ [] s = (TickResult.error "No data available", s) ∧
    (∀ d : TickData,
      (TickResult.error "No data available") ≠ TickResult.success d) := by
  exact ⟨rfl, fun d h => TickResult.noConfusion h⟩

/-- C3 counterexample: with `manual_rpm = 450`, a set-speed request whose
input lacks the speed value is accepted (acknowledged with new_rpm 300.0)
and overwrites `manual_rpm` with the 300.0 default — the request is not
rejected and `manualSpeed` does not keep its prior value 450. -/
theorem C3_counterexample_missing_value :
    (update_simulation RpmInput.missing
      { initState with manual_rpm := 450 }).1 = ControlResult.ok 300 ∧
    (update_simulation RpmInput.missing
      { initState with manual_rpm := 450 }).2.manual_rpm = 300 ∧
    ({ initState with manual_rpm := 450 } : SimState).manual_rpm ≠ 300 := by
  refine ⟨rfl, rfl, by decide⟩

/-- C3 (amended): a set-speed command whose value is present but
non-numeric is rejected (`float` raises before any mutation) with the
control state unchanged; a command whose value is missing is accepted and
replaces `manualSpeed` with the default 300.0, returning 300.0 as new_rpm;
a valid number v replaces `manualSpeed` unconditionally and is returned as
new_rpm. -/
theorem C3_set_speed_behavior (s : SimState) (v : ℚ) :
    update_simulation RpmInput.nonNumeric s = (ControlResult.exception, s) ∧
    update_simulation RpmInput.missing s
      = (ControlResult.ok 300, { s with manual_rpm := 300 }) ∧
    update_simulation (RpmInput.num v) s
      = (ControlResult.ok v, { s with manual_rpm := v }) :=
  ⟨rfl, rfl, rfl⟩

/-- C9: setSpeed accepts a negative value v without clamping or sign
check, and a tick executed with a negative `manualSpeed` and no manual
fault produces neither a success nor an error payload: the agitation
factor `(manualSpeed / 300) ** 0.5` is a complex number in Python and the
enclosing `round(..., 2)` raises, modelled by the `exception` outcome. -/
theorem C9_negative_speed_exception (sqrtQ : ℚ → ℚ) (df : List Row)
    (s : SimState) (v : ℚ) (hv : v < 0) (hfault : s.manual_anomaly = false)
    (hi : s.current_index < df.length) :
    ((update_simulation (RpmInput.num v) s).2).manual_rpm = v ∧
    (get_process_data sqrtQ df ((update_simulation (RpmInput.num v) s).2)).1
      = TickResult.exception ∧
    (∀ d : TickData, (TickResult.exception : TickResult) ≠ TickResult.success d) ∧
    (∀ m : String, (TickResult.exception : TickResult) ≠ TickResult.error m) := by
  refine ⟨rfl, ?_, fun d hd => TickResult.noConfusion hd,
    fun m hm => TickResult.noConfusion hm⟩
  exact tick_exception sqrtQ df _ hi hfault hv

/-- Witness for C9 at a concrete input: speed −50 on the fresh state and a
one-row source. -/
theorem C9_witness :
    ((update_simulation (RpmInput.num (-50)) initState).2).manual_rpm = -50 ∧
    (get_process_data sqrtId [baseRow]
      ((update_simulation (RpmInput.num (-50)) initState).2)).1
      = TickResult.exception ∧
    (∀ d : TickData, (TickResult.exception : TickResult) ≠ TickResult.success d) ∧
    (∀ m : String, (TickResult.exception : TickResult) ≠ TickResult.error m) :=
  C9_negative_speed_exception sqrtId [baseRow] initState (-50) (by norm_num)
    rfl (by decide)

/-- C1: with a Source of length N > 0, starting from the fresh state
(index 0, batch count 1), the batch counter is still 1 after each of the
first N−1 ticks and is 2 after exactly N ticks — it incremented exactly
once — and the Nth tick, which serves the row at index N−1, already
returns the incremented batch identifier `batchId 2 = "B2026-002"`. -/
theorem C1_wrap_early_batch_label (sqrtQ : ℚ → ℚ) (df : List Row)
    (h : df ≠ []) :
    (runTicks sqrtQ df df.length initState).batch_count = 2 ∧
    (∀ k, k < df.length → (runTicks sqrtQ df k initState).batch_count = 1) ∧
    (runTicks sqrtQ df (df.length - 1) initState).current_index
      = df.length - 1 ∧
    (∃ d : TickData,
      (get_process_data sqrtQ df
        (runTicks sqrtQ df (df.length - 1) initState)).1
        = TickResult.success d ∧ d.batch_id = batchId 2) ∧
    batchId 2 = "B2026-002" := by
  have hN : 0 < df.length := List.length_pos.mpr h
  obtain ⟨hidx, hbc, -, hrpm, -⟩ := runTicks_invariant sqrtQ df h (df.length - 1)
  have hidx' : (runTicks sqrtQ df (df.length - 1) initState).current_index
      = df.length - 1 := by
    rw [hidx, Nat.mod_eq_of_lt (by omega)]
  refine ⟨?_, ?_, hidx', ?_, by decide⟩
  · obtain ⟨-, hbcN, -, -, -⟩ := runTicks_invariant sqrtQ df h df.length
    rw [hbcN, Nat.div_self hN]
  · intro k hk
    obtain ⟨-, hbck, -, -, -⟩ := runTicks_invariant sqrtQ df h k
    rw [hbck, Nat.div_eq_of_lt hk]
  · set s := runTicks sqrtQ df (df.length - 1) initState with hs
    have hi : s.current_index < df.length := by rw [hidx']; omega
    have hok : s.manual_anomaly = true ∨ 0 ≤ s.manual_rpm :=
      Or.inr (le_trans (by norm_num) hrpm)
    have ht := tick_success sqrtQ df s hi hok
    refine ⟨_, congrArg Prod.fst ht, ?_⟩
    show batchId (wrapAdvance df.length s.current_index s.batch_count).2
      = batchId 2
    rw [wrapAdvance, hidx', hbc, Nat.div_eq_of_lt (by omega)]
    rw [if_pos (by omega)]

/-- Witness for C1 on a concrete two-row source. -/
theorem C1_witness :
    (runTicks sqrtId [baseRow, lowDO2Row] 2 initState).batch_count = 2 ∧
    (∀ k, k < ([baseRow, lowDO2Row] : List Row).length →
      (runTicks sqrtId [baseRow, lowDO2Row] k initState).batch_count = 1) ∧
    (runTicks sqrtId [baseRow, lowDO2Row] 1 initState).current_index = 1 ∧
    (∃ d : TickData,
      (get_process_data sqrtId [baseRow, lowDO2Row]
        (runTicks sqrtId [baseRow, lowDO2Row] 1 initState)).1
        = TickResult.success d ∧ d.batch_id = batchId 2) ∧
    batchId 2 = "B2026-002" :=
  C1_wrap_early_batch_label sqrtId [baseRow, lowDO2Row] (by decide)

/-- C4 counterexample: with `manual_rpm = 700` — reachable, since setSpeed
applies no clamping — and a row with zero dissolved oxygen, the simulated
oxygenation is 0 < 30 with no fault, so the auto-pilot fires
(`auto_pilot_active = true`) and sets `manual_rpm` to
min(600, 700 + 5) = 600: the Auto-Pilot lowered `manualSpeed` from 700 to
600, refuting "never lowers manualSpeed". -/
theorem C4_counterexample_lowers_speed :
    ((update_simulation (RpmInput.num 700) initState).2).manual_rpm = 700 ∧
    (get_process_data sqrtId [lowDO2Row]
      (update_simulation (RpmInput.num 700) initState).2).1.autoPilotFlag
      = some true ∧
    ((get_process_data sqrtId [lowDO2Row]
      (update_simulation (RpmInput.num 700) initState).2).2).manual_rpm = 600 ∧
    (600 : ℚ) < 700 := by
  have hdo2 : simDO2val sqrtId (rowAt [lowDO2Row] 0) 700 false = 0 := by
    simp [simDO2val, sqrtId, rowAt, lowDO2Row, round2_zero]
  have hap : autoPilot 0 false 700 = (600, true) := by
    rw [autoPilot, if_pos (by norm_num)]
    norm_num
  have hs0 : (update_simulation (RpmInput.num 700) initState).2
      = { initState with manual_rpm := 700 } := rfl
  have ht := tick_success sqrtId [lowDO2Row] { initState with manual_rpm := 700 }
    (by decide) (Or.inr (by norm_num [initState]))
  refine ⟨rfl, ?_, ?_, by norm_num⟩
  · rw [hs0, ht]
    show some (autoPilot (simDO2val sqrtId (rowAt [lowDO2Row] 0) 700 false)
      false 700).2 = some true
    rw [hdo2, hap]
  · rw [hs0, ht]
    show (autoPilot (simDO2val sqrtId (rowAt [lowDO2Row] 0) 700 false)
      false 700).1 = 600
    rw [hdo2, hap]

/-- C4 (amended): on each tick (with an in-range cursor and a state that
does not raise), the Auto-Pilot reports active if and only if the
simulated oxygenation is below 30.0 and there is no manual fault; when it
fires, `manualSpeed` becomes min(600.0, manualSpeed + 5.0), otherwise it
is left unchanged.  Hence the Auto-Pilot never moves the speed below
min(previous, 600.0) nor above max(previous, 600.0): it never lowers a
speed that is at most 600.0 and never raises any speed above 600.0, but a
speed already above 600.0 is cut down to exactly 600.0 when it fires. -/
theorem C4_auto_pilot_rule (sqrtQ : ℚ → ℚ) (df : List Row) (s : SimState)
    (hi : s.current_index < df.length)
    (hok : s.manual_anomaly = true ∨ 0 ≤ s.manual_rpm) :
    ∃ d : TickData,
      (get_process_data sqrtQ df s).1 = TickResult.success d ∧
      (d.auto_pilot_active = true ↔
        (simDO2val sqrtQ (rowAt df s.current_index) s.manual_rpm
            s.manual_anomaly < 30 ∧ s.manual_anomaly = false)) ∧
      (get_process_data sqrtQ df s).2.manual_rpm
        = (if simDO2val sqrtQ (rowAt df s.current_index) s.manual_rpm
              s.manual_anomaly < 30 ∧ s.manual_anomaly = false
           then min 600 (s.manual_rpm + 5) else s.manual_rpm) ∧
      min s.manual_rpm 600 ≤ (get_process_data sqrtQ df s).2.manual_rpm ∧
      (get_process_data sqrtQ df s).2.manual_rpm ≤ max s.manual_rpm 600 := by
  rw [tick_success sqrtQ df s hi hok]
  refine ⟨_, rfl, ?_, ?_, autoPilot_fst_lower _ _ _, autoPilot_fst_upper _ _ _⟩
  · rw [autoPilot]
    split
    · rename_i hc
      obtain ⟨hc1, hc2⟩ := hc
      rw [hc2] at hc1
      simp [hc1, hc2]
    · rename_i hc
      simp [hc]
  · rw [autoPilot, apply_ite Prod.fst]

/-- Witness for C4 (amended) at the fresh state over a one-row source. -/
theorem C4_witness :
    ∃ d : TickData,
      (get_process_data sqrtId [baseRow] initState).1 = TickResult.success d ∧
      (d.auto_pilot_active = true ↔
        (simDO2val sqrtId (rowAt [baseRow] initState.current_index)
            initState.manual_rpm initState.manual_anomaly < 30 ∧
          initState.manual_anomaly = false)) ∧
      (get_process_data sqrtId [baseRow] initState).2.manual_rpm
        = (if simDO2val sqrtId (rowAt [baseRow] initState.current_index)
              initState.manual_rpm initState.manual_anomaly < 30 ∧
              initState.manual_anomaly = false
           then min 600 (initState.manual_rpm + 5) else initState.manual_rpm) ∧
      min initState.manual_rpm 600
        ≤ (get_process_data sqrtId [baseRow] initState).2.manual_rpm ∧
      (get_process_data sqrtId [baseRow] initState).2.manual_rpm
        ≤ max initState.manual_rpm 600 :=
  C4_auto_pilot_rule sqrtId [baseRow] initState (by decide)
    (Or.inr (by norm_num [initState]))

/-- C8: from a cold start over a nonempty Source, after each completed
tick the twin buffer holds exactly min(ticksSoFar, 5) samples; in
particular its length never exceeds 5 regardless of the tick count. -/
theorem C8_twin_buffer_bound (sqrtQ : ℚ → ℚ) (df : List Row) (h : df ≠ [])
    (n : ℕ) :
    (runTicks sqrtQ df n initState).temp_buffer.length = min n 5 ∧
    (runTicks sqrtQ df n initState).temp_buffer.length ≤ 5 := by
  obtain ⟨-, -, hbuf, -, -⟩ := runTicks_invariant sqrtQ df h n
  exact ⟨hbuf, by omega⟩

/-- Witness for C8 after 7 ticks over a one-row source. -/
theorem C8_witness :
    (runTicks sqrtId [baseRow] 7 initState).temp_buffer.length = min 7 5 ∧
    (runTicks sqrtId [baseRow] 7 initState).temp_buffer.length ≤ 5 :=
  C8_twin_buffer_bound sqrtId [baseRow] (by decide) 7

/-- C5: after a cold start over a nonempty Source, the predicted
temperature is absent on each of ticks 1–4 and present on every tick from
tick 5 onward; when present it equals
buffer[last] + ((buffer[last] − buffer[first]) / 4) × 2 computed over the
current 5-sample window (the buffer as left by that same tick), rounded to
2 decimal places. -/
theorem C5_twin_prediction (sqrtQ : ℚ → ℚ) (df : List Row) (h : df ≠ [])
    (k : ℕ) (hk : 1 ≤ k) :
    ∃ d : TickData,
      (get_process_data sqrtQ df (runTicks sqrtQ df (k - 1) initState)).1
        = TickResult.success d ∧
      (k ≤ 4 → d.digital_twin_temp = none) ∧
      (5 ≤ k →
        (runTicks sqrtQ df k initState).temp_buffer.length = 5 ∧
        d.digital_twin_temp = some (round2
          ((runTicks sqrtQ df k initState).temp_buffer.getLastD 0 +
            (((runTicks sqrtQ df k initState).temp_buffer.getLastD 0 -
              (runTicks sqrtQ df k initState).temp_buffer.headD 0) / 4) * 2))) := by
  have hN : 0 < df.length := List.length_pos.mpr h
  obtain ⟨hidx, -, hbuf, hrpm, -⟩ := runTicks_invariant sqrtQ df h (k - 1)
  set s := runTicks sqrtQ df (k - 1) initState with hs
  have hi : s.current_index < df.length := hidx ▸ Nat.mod_lt _ hN
  have hok : s.manual_anomaly = true ∨ 0 ≤ s.manual_rpm :=
    Or.inr (le_trans (by norm_num) hrpm)
  have ht := tick_success sqrtQ df s hi hok
  have hstep : runTicks sqrtQ df k initState = tickState sqrtQ df s := by
    conv_lhs => rw [show k = (k - 1) + 1 by omega]
    rw [runTicks, Function.iterate_succ_apply']
    rfl
  have hB : (runTicks sqrtQ df k initState).temp_buffer
      = pushBuffer s.temp_buffer (simTemp (rowAt df s.current_index) s.manual_rpm) := by
    rw [hstep, tickState, ht]
  have hblen : (pushBuffer s.temp_buffer
      (simTemp (rowAt df s.current_index) s.manual_rpm)).length = min k 5 := by
    rw [pushBuffer_length, hbuf]
    split <;> omega
  refine ⟨_, congrArg Prod.fst ht, ?_, ?_⟩
  · intro hk4
    show predictTemp (pushBuffer s.temp_buffer
      (simTemp (rowAt df s.current_index) s.manual_rpm)) = none
    rw [predictTemp, if_neg (by rw [hblen]; omega)]
  · intro hk5
    have hlen5 : (pushBuffer s.temp_buffer
        (simTemp (rowAt df s.current_index) s.manual_rpm)).length = 5 := by
      rw [hblen]; omega
    refine ⟨by rw [hB]; exact hlen5, ?_⟩
    show predictTemp (pushBuffer s.temp_buffer
      (simTemp (rowAt df s.current_index) s.manual_rpm)) = _
    rw [hB, predictTemp, if_pos hlen5]

/-- Witness for C5 at tick 5 over a one-row source. -/
theorem C5_witness :
    ∃ d : TickData,
      (get_process_data sqrtId [baseRow]
        (runTicks sqrtId [baseRow] (5 - 1) initState)).1
        = TickResult.success d ∧
      (5 ≤ 4 → d.digital_twin_temp = none) ∧
      (5 ≤ 5 →
        (runTicks sqrtId [baseRow] 5 initState).temp_buffer.length = 5 ∧
        d.digital_twin_temp = some (round2
          ((runTicks sqrtId [baseRow] 5 initState).temp_buffer.getLastD 0 +
            (((runTicks sqrtId [baseRow] 5 initState).temp_buffer.getLastD 0 -
              (runTicks sqrtId [baseRow] 5 initState).temp_buffer.headD 0) / 4)
              * 2))) :=
  C5_twin_prediction sqrtId [baseRow] (by decide) 5 (by norm_num)

/-- C6: for every row and every control state (on the non-raising tick
path), the health score computed by the tick equals
clamp(100 − |simulatedTemperature − 37.0|·15 − |pH − 7.0|·40 −
faultPenalty, 0, 100) with faultPenalty 50 when the manual fault is set,
lies in [0, 100], and the response carries it rounded to 1 decimal. -/
theorem C6_health_score_clamped (sqrtQ : ℚ → ℚ) (df : List Row) (s : SimState)
    (hi : s.current_index < df.length)
    (hok : s.manual_anomaly = true ∨ 0 ≤ s.manual_rpm) :
    ∃ d : TickData,
      (get_process_data sqrtQ df s).1 = TickResult.success d ∧
      d.health_score = round1 (healthScore
        (simTemp (rowAt df s.current_index) s.manual_rpm)
        (rowAt df s.current_index).pH s.manual_anomaly) ∧
      0 ≤ healthScore (simTemp (rowAt df s.current_index) s.manual_rpm)
        (rowAt df s.current_index).pH s.manual_anomaly ∧
      healthScore (simTemp (rowAt df s.current_index) s.manual_rpm)
        (rowAt df s.current_index).pH s.manual_anomaly ≤ 100 ∧
      healthScore (simTemp (rowAt df s.current_index) s.manual_rpm)
        (rowAt df s.current_index).pH s.manual_anomaly
        = max 0 (min 100 (100
            - |simTemp (rowAt df s.current_index) s.manual_rpm - 37| * 15
            - |(rowAt df s.current_index).pH - 7| * 40
            - (if s.manual_anomaly then 50 else 0))) := by
  have ht := tick_success sqrtQ df s hi hok
  exact ⟨_, congrArg Prod.fst ht, rfl, le_max_left _ _,
    max_le (by norm_num) (min_le_left _ _), rfl⟩

/-- Witness for C6 at the fresh state over a one-row source. -/
theorem C6_witness :
    ∃ d : TickData,
      (get_process_data sqrtId [baseRow] initState).1 = TickResult.success d ∧
      d.health_score = round1 (healthScore
        (simTemp (rowAt [baseRow] initState.current_index) initState.manual_rpm)
        (rowAt [baseRow] initState.current_index).pH initState.manual_anomaly) ∧
      0 ≤ healthScore (simTemp (rowAt [baseRow] initState.current_index)
        initState.manual_rpm)
        (rowAt [baseRow] initState.current_index).pH initState.manual_anomaly ∧
      healthScore (simTemp (rowAt [baseRow] initState.current_index)
        initState.manual_rpm)
        (rowAt [baseRow] initState.current_index).pH initState.manual_anomaly
        ≤ 100 ∧
      healthScore (simTemp (rowAt [baseRow] initState.current_index)
        initState.manual_rpm)
        (rowAt [baseRow] initState.current_index).pH initState.manual_anomaly
        = max 0 (min 100 (100
            - |simTemp (rowAt [baseRow] initState.current_index)
                initState.manual_rpm - 37| * 15
            - |(rowAt [baseRow] initState.current_index).pH - 7| * 40
            - (if initState.manual_anomaly then 50 else 0))) :=
  C6_health_score_clamped sqrtId [baseRow] initState (by decide)
    (Or.inr (by norm_num [initState]))

/-- C7: any tick executed while the manual fault is set reports
`is_anomaly = true` and a Dissolved_Oxygen of row.Dissolved_Oxygen × 0.05
rounded to 2 decimals; and on any tick, `is_anomaly` is true exactly when
the health score is below 70 or the manual fault is set. -/
theorem C7_fault_anomaly (sqrtQ : ℚ → ℚ) (df : List Row) (s : SimState)
    (hi : s.current_index < df.length)
    (hok : s.manual_anomaly = true ∨ 0 ≤ s.manual_rpm) :
    ∃ d : TickData,
      (get_process_data sqrtQ df s).1 = TickResult.success d ∧
      (s.manual_anomaly = true →
        d.is_anomaly = true ∧
        d.Dissolved_Oxygen
          = round2 ((rowAt df s.current_index).Dissolved_Oxygen * (5 / 100))) ∧
      (d.is_anomaly = true ↔
        (healthScore (simTemp (rowAt df s.current_index) s.manual_rpm)
          (rowAt df s.current_index).pH s.manual_anomaly < 70
          ∨ s.manual_anomaly = true)) := by
  have ht := tick_success sqrtQ df s hi hok
  refine ⟨_, congrArg Prod.fst ht, ?_, ?_⟩
  · intro hf
    constructor
    · show (decide (healthScore (simTemp (rowAt df s.current_index) s.manual_rpm)
        (rowAt df s.current_index).pH s.manual_anomaly < 70)
          || s.manual_anomaly) = true
      rw [hf, Bool.or_true]
    · show round2 (simDO2val sqrtQ (rowAt df s.current_index) s.manual_rpm
          s.manual_anomaly)
        = round2 ((rowAt df s.current_index).Dissolved_Oxygen * (5 / 100))
      rw [hf, simDO2val, if_pos rfl, round2_round2]
  · show (decide (healthScore (simTemp (rowAt df s.current_index) s.manual_rpm)
      (rowAt df s.current_index).pH s.manual_anomaly < 70)
        || s.manual_anomaly) = true ↔ _
    simp [Bool.or_eq_true, decide_eq_true_iff]

/-- Witness for C7 at the fresh state, with the fault set by the
trigger-fault endpoint, over a one-row source. -/
theorem C7_witness :
    ∃ d : TickData,
      (get_process_data sqrtId [baseRow] (trigger_anomaly initState)).1
        = TickResult.success d ∧
      ((trigger_anomaly initState).manual_anomaly = true →
        d.is_anomaly = true ∧
        d.Dissolved_Oxygen
          = round2 ((rowAt [baseRow]
              (trigger_anomaly initState).current_index).Dissolved_Oxygen
              * (5 / 100))) ∧
      (d.is_anomaly = true ↔
        (healthScore (simTemp (rowAt [baseRow]
            (trigger_anomaly initState).current_index)
            (trigger_anomaly initState).manual_rpm)
          (rowAt [baseRow] (trigger_anomaly initState).current_index).pH
          (trigger_anomaly initState).manual_anomaly < 70
          ∨ (trigger_anomaly initState).manual_anomaly = true)) :=
  C7_fault_anomaly sqrtId [baseRow] (trigger_anomaly initState) (by decide)
    (Or.inl rfl)

/-- C10: every successful tick response overwrites the historical row's
fields: Temperature carries the simulated temperature, Dissolved_Oxygen
the simulated oxygenation, and Impeller_Speed the manual speed as it
stands after any Auto-Pilot adjustment of that same tick (the post-tick
control state), rounded to 1 decimal place. -/
theorem C10_overwritten_fields (sqrtQ : ℚ → ℚ) (df : List Row) (s : SimState)
    (hi : s.current_index < df.length)
    (hok : s.manual_anomaly = true ∨ 0 ≤ s.manual_rpm) :
    ∃ d : TickData,
      (get_process_data sqrtQ df s).1 = TickResult.success d ∧
      d.Temperature = simTemp (rowAt df s.current_index) s.manual_rpm ∧
      d.Dissolved_Oxygen
        = simDO2val sqrtQ (rowAt df s.current_index) s.manual_rpm
            s.manual_anomaly ∧
      d.Impeller_Speed
        = round1 ((get_process_data sqrtQ df s).2.manual_rpm) := by
  have ht := tick_success sqrtQ df s hi hok
  refine ⟨_, congrArg Prod.fst ht, rfl, round2_simDO2val sqrtQ _ _ _, ?_⟩
  rw [ht]

/-- Witness for C10 at the fresh state over a one-row source. -/
theorem C10_witness :
    ∃ d : TickData,
      (get_process_data sqrtId [baseRow] initState).1 = TickResult.success d ∧
      d.Temperature
        = simTemp (rowAt [baseRow] initState.current_index)
            initState.manual_rpm ∧
      d.Dissolved_Oxygen
        = simDO2val sqrtId (rowAt [baseRow] initState.current_index)
            initState.manual_rpm initState.manual_anomaly ∧
      d.Impeller_Speed
        = round1 ((get_process_data sqrtId [baseRow] initState).2.manual_rpm) :=
  C10_overwritten_fields sqrtId [baseRow] initState (by decide)
    (Or.inr (by norm_num [initState]))

end Bioprocess
